import Mathlib

/-!
# Xvisor core bring-up (`core/vmm_main.c`) and the x86 VCPU header (`cpu_vm.h`)

A shallow embedding of

* `vmm_hang`, `vmm_init`, `vmm_reset`, `vmm_shutdown` from `core/vmm_main.c`;
* the constants of `arch/x86/cpu/common/include/cpu_vm.h`.

`vmm_main.c` is straight-line code that calls functions defined in other
translation units.  Such a call is modelled as an observable `Event`, and the
value the callee hands back is read from an `Env` (one value per callee, and
for `vmm_scheduler_guest_create` one value per call).  A C function becomes a
computation `Run α` that yields the events it performs, in order, together
with `some r` when it returns `r` to its caller and `none` when it never
returns (`vmm_hang` is `while (1) ;`).
-/

namespace Xvisor

/-! ## Callees and observable events -/

/-- The twenty `int f(void)` initialisers `vmm_init` calls. -/
inductive InitFn
  | vmm_heap_init
  | vmm_devtree_init
  | vmm_host_aspace_init
  | vmm_host_irq_init
  | vmm_cpu_early_init
  | vmm_board_early_init
  | vmm_stdio_init
  | vmm_timer_init
  | vmm_scheduler_init
  | vmm_hyperthreading_init
  | vmm_devdrv_init
  | vmm_devemu_init
  | vmm_chardev_init
  | vmm_blockdev_init
  | vmm_netdev_init
  | vmm_vserial_init
  | vmm_mterm_init
  | vmm_modules_init
  | vmm_cpu_final_init
  | vmm_board_final_init
  deriving DecidableEq, Repr

/-- An argument passed to `vmm_printf` after the format string. -/
inductive Arg
  | int (v : Int)
  | str (s : String)
  deriving DecidableEq, Repr

/-- The part of `vmm_devtree_node_t` that `vmm_init` reads of a child of the
guest-info node: its `name`. -/
structure vmm_devtree_node_t where
  name : String
  deriving DecidableEq, Repr

/-- A non-NULL `vmm_guest_t *`. -/
structure vmm_guest_t where
  handle : Nat
  deriving DecidableEq, Repr

/-- One call that leaves `vmm_main.c`, or the entry into `vmm_hang`. -/
inductive Event
  | init (f : InitFn)
  | vmm_printf (fmt : String) (args : List Arg)
  | vmm_devtree_getnode (path : String)
  | vmm_scheduler_guest_create (gnode : vmm_devtree_node_t)
  | vmm_timer_start
  | vmm_timer_stop
  | vmm_board_reset
  | vmm_board_shutdown
  | vmm_panic (msg : String)
  | vmm_hang
  deriving DecidableEq, Repr

/-- What the callees answer, and the macros of headers that are not part of
the embedded sources (`vmm_version.h`, `vmm_devtree.h`, the compiler's
`__DATE__` and `__TIME__`). -/
structure Env where
  /-- return code of each initialiser, a C `int`; `vmm_init` compares it
  with 0 and hands it to `vmm_printf`, nothing else -/
  rc : InitFn → Int
  /-- `vmm_devtree_getnode`: `none` is NULL, `some cs` a node whose
  `child_list` holds `cs` -/
  devtree_getnode : String → Option (List vmm_devtree_node_t)
  /-- `vmm_scheduler_guest_create`: the answer to the `i`-th call (from 0)
  of the loop, `none` is NULL -/
  guest_create : Nat → vmm_devtree_node_t → Option vmm_guest_t
  /-- return code of `vmm_board_reset` -/
  board_reset : Int
  /-- return code of `vmm_board_shutdown` -/
  board_shutdown : Int
  /-- whether `vmm_panic` comes back to its caller -/
  panic_returns : Bool
  VMM_PROJECT_NAME : String
  VMM_PROJECT_VER_MAJOR : Int
  VMM_PROJECT_VER_MINOR : Int
  DATE : String
  TIME : String
  VMM_DEVTREE_PATH_SEPRATOR_STRING : String
  VMM_DEVTREE_GUESTINFO_NODE_NAME : String

/-! ## Computations -/

/-- The events a C function performs, and its result: `none` when control
never comes back. -/
@[ext] structure Run (α : Type) where
  trace : List Event
  result : Option α

namespace Run

/-- Sequencing: what follows a computation that never returns is not run. -/
def andThen {α β : Type} (m : Run α) (k : α → Run β) : Run β :=
  match m.result with
  | none => ⟨m.trace, none⟩
  | some a => ⟨m.trace ++ (k a).trace, (k a).result⟩

instance : Monad Run where
  pure a := ⟨[], some a⟩
  bind := andThen

/-- A call that performs `e` and returns `a`. -/
def call {α : Type} (e : Event) (a : α) : Run α := ⟨[e], some a⟩

end Run

open Run

/-- `void vmm_hang(void) { while (1) ; }` -/
def vmm_hang : Run Unit := ⟨[Event.vmm_hang], none⟩

/-- A call `f()` of an initialiser. -/
def init (w : Env) (f : InitFn) : Run Int := call (.init f) (w.rc f)

/-- A call `vmm_printf(fmt, args...)`. -/
def vmm_printf (fmt : String) (args : List Arg) : Run Unit :=
  call (.vmm_printf fmt args) ()

/-- The body of `list_for_each(l, &gsnode->child_list)` in `vmm_init`, run
on the entries of the list from the `i`-th on. -/
def guest_loop (w : Env) : Nat → List vmm_devtree_node_t → Run Unit
  | _, [] => pure ()
  | i, gnode :: rest => do
    vmm_printf "Creating %s\n" [.str gnode.name]
    let guest ← call (.vmm_scheduler_guest_create gnode) (w.guest_create i gnode)
    if guest.isNone then
      vmm_printf "Error: Failed to create guest\n" []
    guest_loop w (i + 1) rest

/-- `void vmm_init(void)` -/
def vmm_init (w : Env) : Run Unit := do
  /- Initialize Heap -/
  let ret ← init w .vmm_heap_init
  if ret ≠ 0 then
    vmm_hang
  /- Initialize Device Tree -/
  let ret ← init w .vmm_devtree_init
  if ret ≠ 0 then
    vmm_hang
  /- Initialize host virtual address space -/
  let ret ← init w .vmm_host_aspace_init
  if ret ≠ 0 then
    vmm_hang
  /- Initialize host interrupts -/
  let ret ← init w .vmm_host_irq_init
  if ret ≠ 0 then
    vmm_printf "Error %d\n" [.int ret]
    vmm_hang
  /- Initialize CPU early -/
  let ret ← init w .vmm_cpu_early_init
  if ret ≠ 0 then
    vmm_hang
  /- Initialize Board early -/
  let ret ← init w .vmm_board_early_init
  if ret ≠ 0 then
    vmm_hang
  /- Initialize standerd input/output -/
  let ret ← init w .vmm_stdio_init
  if ret ≠ 0 then
    vmm_hang
  /- Print version string -/
  vmm_printf "\n" []
  vmm_printf "%s Version %d.%d (%s %s)\n"
    [.str w.VMM_PROJECT_NAME, .int w.VMM_PROJECT_VER_MAJOR,
     .int w.VMM_PROJECT_VER_MINOR, .str w.DATE, .str w.TIME]
  vmm_printf "\n" []
  /- Print intial messages that we missed -/
  vmm_printf "Initialize Heap\n" []
  vmm_printf "Initialize Device Tree\n" []
  vmm_printf "Initialize Host Address Space\n" []
  vmm_printf "Initialize Host Interrupt Subsystem\n" []
  vmm_printf "Initialize CPU Early\n" []
  vmm_printf "Initialize Board Early\n" []
  vmm_printf "Initialize Standered I/O Subsystem\n" []
  /- Initialize timer subsystem -/
  vmm_printf "Initialize Hypervisor Timer Subsystem\n" []
  let ret ← init w .vmm_timer_init
  if ret ≠ 0 then
    vmm_printf "Error %d\n" [.int ret]
    vmm_hang
  /- Initialize scheduler -/
  vmm_printf "Initialize Hypervisor Scheduler\n" []
  let ret ← init w .vmm_scheduler_init
  if ret ≠ 0 then
    vmm_printf "Error %d\n" [.int ret]
    vmm_hang
  /- Initialize hyperthreading framework -/
  vmm_printf "Initialize Hyperthreading Framework\n" []
  let ret ← init w .vmm_hyperthreading_init
  if ret ≠ 0 then
    vmm_printf "Error %d\n" [.int ret]
    vmm_hang
  /- Initialize device driver framework -/
  vmm_printf "Initialize Device Driver Framework\n" []
  let ret ← init w .vmm_devdrv_init
  if ret ≠ 0 then
    vmm_printf "Error %d\n" [.int ret]
    vmm_hang
  /- Initialize device emulation framework -/
  vmm_printf "Initialize Device Emulation Framework\n" []
  let ret ← init w .vmm_devemu_init
  if ret ≠ 0 then
    vmm_printf "Error %d\n" [.int ret]
    vmm_hang
  /- Initialize character device framework -/
  vmm_printf "Initialize Character Device Framework\n" []
  let ret ← init w .vmm_chardev_init
  if ret ≠ 0 then
    vmm_printf "Error %d\n" [.int ret]
    vmm_hang
  /- Initialize block device framework -/
  vmm_printf "Initialize Block Device Framework\n" []
  let ret ← init w .vmm_blockdev_init
  if ret ≠ 0 then
    vmm_printf "Error %d\n" [.int ret]
    vmm_hang
  /- Initialize network device framework -/
  vmm_printf "Initialize Networking Framework\n" []
  let ret ← init w .vmm_netdev_init
  if ret ≠ 0 then
    vmm_printf "Error %d\n" [.int ret]
    vmm_hang
  /- Initialize character device framework -/
  vmm_printf "Initialize Virtual Serial Port Framework\n" []
  let ret ← init w .vmm_vserial_init
  if ret ≠ 0 then
    vmm_printf "Error %d\n" [.int ret]
    vmm_hang
  /- Initialize managment terminal -/
  vmm_printf "Initialize Managment Terminal\n" []
  let ret ← init w .vmm_mterm_init
  if ret ≠ 0 then
    vmm_printf "Error %d\n" [.int ret]
    vmm_hang
  /- Initialize modules -/
  let ret ← init w .vmm_modules_init
  if ret ≠ 0 then
    vmm_hang
  /- Initialize cpu final -/
  vmm_printf "Initialize CPU Final\n" []
  let ret ← init w .vmm_cpu_final_init
  if ret ≠ 0 then
    vmm_printf "Error %d\n" [.int ret]
    vmm_hang
  /- Intialize board final -/
  vmm_printf "Initialize Board Final\n" []
  let ret ← init w .vmm_board_final_init
  if ret ≠ 0 then
    vmm_printf "Error %d\n" [.int ret]
    vmm_hang
  /- Populate guest instances -/
  vmm_printf "Populating Guest Instances\n" []
  let path := w.VMM_DEVTREE_PATH_SEPRATOR_STRING ++ w.VMM_DEVTREE_GUESTINFO_NODE_NAME
  let gsnode ← call (.vmm_devtree_getnode path) (w.devtree_getnode path)
  if gsnode.isNone then
    vmm_printf "Error %d\n" [.int ret]
    vmm_hang
  guest_loop w 0 (gsnode.getD [])
  /- Start timer -/
  vmm_printf "Starting Hypervisor Timer\n" []
  call .vmm_timer_start ()
  /- Wait here till scheduler gets invoked by timer -/
  vmm_hang

/-- A call `vmm_panic(msg)`; whether it comes back is up to the callee. -/
def vmm_panic (w : Env) (msg : String) : Run Unit :=
  ⟨[Event.vmm_panic msg], if w.panic_returns then some () else none⟩

/-- `void vmm_reset(void)` -/
def vmm_reset (w : Env) : Run Unit := do
  /- Stop scheduler -/
  vmm_printf "Stopping Hypervisor Timer Subsytem\n" []
  call .vmm_timer_stop ()
  /- Issue board reset -/
  vmm_printf "Issuing Board Reset\n" []
  let rc ← call .vmm_board_reset w.board_reset
  if rc ≠ 0 then
    vmm_panic w "Error: Board reset failed.\n"
  /- Wait here. Nothing else to do. -/
  vmm_hang

/-- `void vmm_shutdown(void)` -/
def vmm_shutdown (w : Env) : Run Unit := do
  /- Stop scheduler -/
  vmm_printf "Stopping Hypervisor Timer Subsytem\n" []
  call .vmm_timer_stop ()
  /- Issue board shutdown -/
  vmm_printf "Issuing Board Shutdown\n" []
  let rc ← call .vmm_board_shutdown w.board_shutdown
  if rc ≠ 0 then
    vmm_panic w "Error: Board shutdown failed.\n"
  /- Wait here. Nothing else to do. -/
  vmm_hang

/-! ## Constants of `cpu_vm.h` -/

/-- `#define USER_ITC_SWINT (1 << 0)` -/
def USER_ITC_SWINT : Nat := 1 <<< 0
/-- `#define USER_ITC_TASKSWITCH (1 << 1)` -/
def USER_ITC_TASKSWITCH : Nat := 1 <<< 1
/-- `#define USER_ITC_SYSCALL (1 << 2)` -/
def USER_ITC_SYSCALL : Nat := 1 <<< 2
/-- `#define USER_ITC_IRET (1 << 3)` -/
def USER_ITC_IRET : Nat := 1 <<< 3
/-- `#define USER_SINGLE_STEPPING (1 << 4)` -/
def USER_SINGLE_STEPPING : Nat := 1 <<< 4
/-- `#define USER_UNPACK (1 << 5)` -/
def USER_UNPACK : Nat := 1 <<< 5
/-- `#define USER_ITC_ALL (0xFF)` -/
def USER_ITC_ALL : Nat := 0xFF

/-- `#define IO_INTCPT_TBL_SZ (12 << 10)`, in bytes -/
def IO_INTCPT_TBL_SZ : Nat := 12 <<< 10
/-- `#define MSR_INTCPT_TBL_SZ (8 << 10)`, in bytes -/
def MSR_INTCPT_TBL_SZ : Nat := 8 <<< 10

/-! ## Intercept arming

`cpu_vm.h` only declares `cpu_enable_vcpu_intercept` and
`cpu_disable_vcpu_intercept`; their bodies are in a file that is not part of
the embedded sources. -/

/-- The part of `struct vcpu_hw_context` that intercept arming touches:
`itc_flag`, and the contents of the two tables that `io_intercept_table` and
`msr_intercept_table` point to, each a dense bitmap read as a number (bit `n`
of the number is bit `n` of the table). -/
structure vcpu_hw_context where
  itc_flag : Nat
  itc_skip_flag : Nat
  io_intercept_table : Nat
  msr_intercept_table : Nat
  deriving DecidableEq, Repr

/-- Modelled from the spec: which bits of the two tables correspond to a
class mask.  `cpu_vm.h` declares the arming functions without a body and the
specification speaks of "the corresponding hardware bitmap bits" without
listing them, so the correspondence is left open. -/
structure InterceptMap where
  io_bits : Nat → Nat
  msr_bits : Nat → Nat

/-- `a & ~m` on bit patterns read as natural numbers. -/
def clear_bits (a m : Nat) : Nat := a ^^^ (a &&& m)

/-- Modelled from the spec: the body of `cpu_enable_vcpu_intercept` is missing
from the sources.  Section 4.3: enable "set[s] the bits in the interception
flag set and the corresponding hardware bitmap bits; idempotent, enabling an
already-enabled class is a no-op". -/
def cpu_enable_vcpu_intercept (hw : InterceptMap) (context : vcpu_hw_context)
    (flags : Nat) : vcpu_hw_context :=
  { context with
    itc_flag := context.itc_flag ||| flags
    io_intercept_table := context.io_intercept_table ||| hw.io_bits flags
    msr_intercept_table := context.msr_intercept_table ||| hw.msr_bits flags }

/-- Modelled from the spec: the body of `cpu_disable_vcpu_intercept` is
missing from the sources.  Section 4.3: disable "clear[s] the bits in the
interception flag set and the corresponding hardware bitmap bits; disabling an
unarmed class is a no-op". -/
def cpu_disable_vcpu_intercept (hw : InterceptMap) (context : vcpu_hw_context)
    (flags : Nat) : vcpu_hw_context :=
  { context with
    itc_flag := clear_bits context.itc_flag flags
    io_intercept_table := clear_bits context.io_intercept_table (hw.io_bits flags)
    msr_intercept_table := clear_bits context.msr_intercept_table (hw.msr_bits flags) }

/-- A valid class mask: non-empty and within `USER_ITC_ALL`. -/
def valid_class_mask (m : Nat) : Prop := m ≠ 0 ∧ m &&& USER_ITC_ALL = m

instance (m : Nat) : Decidable (valid_class_mask m) := by
  unfold valid_class_mask; infer_instance

/-! ## Reading a trace -/

/-- Whether an event is a `vmm_printf` call. -/
def Event.isPrintf : Event → Bool
  | .vmm_printf _ _ => true
  | _ => false

/-- The calls of a trace other than console output. -/
def actions (t : List Event) : List Event := t.filter (fun e => !e.isPrintf)

/-- The initialisers in the order in which `vmm_init` calls them. -/
def init_order : List InitFn :=
  [.vmm_heap_init, .vmm_devtree_init, .vmm_host_aspace_init, .vmm_host_irq_init,
   .vmm_cpu_early_init, .vmm_board_early_init, .vmm_stdio_init, .vmm_timer_init,
   .vmm_scheduler_init, .vmm_hyperthreading_init, .vmm_devdrv_init, .vmm_devemu_init,
   .vmm_chardev_init, .vmm_blockdev_init, .vmm_netdev_init, .vmm_vserial_init,
   .vmm_mterm_init, .vmm_modules_init, .vmm_cpu_final_init, .vmm_board_final_init]

/-- The path `vmm_init` looks the guest-info node up under. -/
def guestinfo_path (w : Env) : String :=
  w.VMM_DEVTREE_PATH_SEPRATOR_STRING ++ w.VMM_DEVTREE_GUESTINFO_NODE_NAME

/-- The events of `vmm_init` from its first statement up to and including
the lookup of the guest-info node, when every initialiser returns 0. -/
def boot_trace (w : Env) : List Event :=
  [.init .vmm_heap_init, .init .vmm_devtree_init, .init .vmm_host_aspace_init,
   .init .vmm_host_irq_init, .init .vmm_cpu_early_init, .init .vmm_board_early_init,
   .init .vmm_stdio_init,
   .vmm_printf "\n" [],
   .vmm_printf "%s Version %d.%d (%s %s)\n"
     [.str w.VMM_PROJECT_NAME, .int w.VMM_PROJECT_VER_MAJOR,
      .int w.VMM_PROJECT_VER_MINOR, .str w.DATE, .str w.TIME],
   .vmm_printf "\n" [],
   .vmm_printf "Initialize Heap\n" [],
   .vmm_printf "Initialize Device Tree\n" [],
   .vmm_printf "Initialize Host Address Space\n" [],
   .vmm_printf "Initialize Host Interrupt Subsystem\n" [],
   .vmm_printf "Initialize CPU Early\n" [],
   .vmm_printf "Initialize Board Early\n" [],
   .vmm_printf "Initialize Standered I/O Subsystem\n" [],
   .vmm_printf "Initialize Hypervisor Timer Subsystem\n" [], .init .vmm_timer_init,
   .vmm_printf "Initialize Hypervisor Scheduler\n" [], .init .vmm_scheduler_init,
   .vmm_printf "Initialize Hyperthreading Framework\n" [], .init .vmm_hyperthreading_init,
   .vmm_printf "Initialize Device Driver Framework\n" [], .init .vmm_devdrv_init,
   .vmm_printf "Initialize Device Emulation Framework\n" [], .init .vmm_devemu_init,
   .vmm_printf "Initialize Character Device Framework\n" [], .init .vmm_chardev_init,
   .vmm_printf "Initialize Block Device Framework\n" [], .init .vmm_blockdev_init,
   .vmm_printf "Initialize Networking Framework\n" [], .init .vmm_netdev_init,
   .vmm_printf "Initialize Virtual Serial Port Framework\n" [], .init .vmm_vserial_init,
   .vmm_printf "Initialize Managment Terminal\n" [], .init .vmm_mterm_init,
   .init .vmm_modules_init,
   .vmm_printf "Initialize CPU Final\n" [], .init .vmm_cpu_final_init,
   .vmm_printf "Initialize Board Final\n" [], .init .vmm_board_final_init,
   .vmm_printf "Populating Guest Instances\n" [],
   .vmm_devtree_getnode (guestinfo_path w)]

/-- The events of `vmm_init` after the lookup of the guest-info node, when
every initialiser has returned 0. -/
def guest_stage_trace (w : Env) : List Event :=
  match w.devtree_getnode (guestinfo_path w) with
  | none => [.vmm_printf "Error %d\n" [.int 0], .vmm_hang]
  | some cs =>
    (guest_loop w 0 cs).trace ++
      [.vmm_printf "Starting Hypervisor Timer\n" [], .vmm_timer_start, .vmm_hang]

/-- The nodes `vmm_scheduler_guest_create` is called on, in call order. -/
def created : List Event → List vmm_devtree_node_t
  | [] => []
  | .vmm_scheduler_guest_create n :: t => n :: created t
  | _ :: t => created t

/-- An event with what `vmm_reset` and `vmm_shutdown` differ in erased: the
text of a message, and which of the two board operations is issued. -/
def Event.shape : Event → Event
  | .vmm_printf _ _ => .vmm_printf "" []
  | .vmm_panic _ => .vmm_panic ""
  | .vmm_board_shutdown => .vmm_board_reset
  | e => e

/-! ## Definitions used in the proofs -/

/-- A computation with one more event in front. -/
@[irreducible] def emit {α : Type} (e : Event) (m : Run α) : Run α := ⟨e :: m.trace, m.result⟩

/-- A computation with a list of events in front. -/
def prepend {α : Type} (t : List Event) (m : Run α) : Run α := ⟨t ++ m.trace, m.result⟩

/-- What a run of `vmm_init` that stops in the initialisation stage consists
of: initialiser calls, console output other than the guest-stage banner, and
the final hang. -/
def Event.isBootOnly : Event → Bool
  | .init _ => true
  | .vmm_hang => true
  | .vmm_printf fmt _ => fmt ≠ "Populating Guest Instances\n"
  | _ => false

/-- A run that stopped in the initialisation stage. -/
def Stopped (r : Run Unit) : Prop :=
  r.result = none ∧ r.trace.getLast? = some .vmm_hang ∧
  (∀ e ∈ r.trace, e.isBootOnly = true) ∧
  (actions r.trace).getLast? = some .vmm_hang ∧
  (actions r.trace).dropLast <+: init_order.map Event.init

/-- The property `P` of a run that has `acc` behind it and `r` still ahead. -/
structure After (P : Run Unit → Prop) (acc : List Event) (r : Run Unit) : Prop where
  out : P ⟨acc ++ r.trace, r.result⟩

/-- What follows the board operation: `vmm_panic` when it returned non-zero,
and `vmm_hang` unless `vmm_panic` keeps control. -/
def after_board (w : Env) (rc : Int) (msg : String) : List Event :=
  if rc ≠ 0 then
    .vmm_panic msg :: (if w.panic_returns then [.vmm_hang] else [])
  else [.vmm_hang]

/-! ## Sample environments -/

/-- Every initialiser returns 0, the guest-info node has the two children
`guest0` and `guest1`, and creating the first guest fails. -/
def env_ok : Env where
  rc := fun _ => 0
  devtree_getnode := fun _ => some [⟨"guest0"⟩, ⟨"guest1"⟩]
  guest_create := fun i _ => if i = 0 then none else some ⟨i⟩
  board_reset := 0
  board_shutdown := 0
  panic_returns := false
  VMM_PROJECT_NAME := "Xvisor"
  VMM_PROJECT_VER_MAJOR := 0
  VMM_PROJECT_VER_MINOR := 1
  DATE := ""
  TIME := ""
  VMM_DEVTREE_PATH_SEPRATOR_STRING := "/"
  VMM_DEVTREE_GUESTINFO_NODE_NAME := "guests"

/-- Like `env_ok`, but initialiser `f` returns `code`. -/
def env_fail (f : InitFn) (code : Int) : Env :=
  { env_ok with rc := fun g => if g = f then code else 0 }

/-- Like `env_ok`, but there is no guest-info node. -/
def env_no_guestinfo : Env :=
  { env_ok with devtree_getnode := fun _ => none }

/-- Like `env_ok`, but both board operations return `code`. -/
def env_board (code : Int) : Env :=
  { env_ok with board_reset := code, board_shutdown := code }

/-- A context in which the software-interrupt class is already armed and
both tables are empty. -/
def ctx_swint_armed : vcpu_hw_context where
  itc_flag := USER_ITC_SWINT
  itc_skip_flag := 0
  io_intercept_table := 0
  msr_intercept_table := 0

/-- A context with no class armed in which bit 0 of the I/O table is set. -/
def ctx_io_bit_set : vcpu_hw_context where
  itc_flag := 0
  itc_skip_flag := 0
  io_intercept_table := 1
  msr_intercept_table := 0

/-- A context with nothing armed and both tables empty. -/
def ctx_idle : vcpu_hw_context where
  itc_flag := 0
  itc_skip_flag := 0
  io_intercept_table := 0
  msr_intercept_table := 0

/-- A correspondence in which class bit `i` stands for bit `i` of the I/O
table and for bit `i + 8` of the MSR table. -/
def hw_sample : InterceptMap where
  io_bits := fun m => m
  msr_bits := fun m => m <<< 8

/-! ## Sequencing lemmas -/

theorem bind_eq {α β : Type} (m : Run α) (k : α → Run β) : m >>= k = m.andThen k := rfl

@[simp] theorem emit_trace {α : Type} (e : Event) (m : Run α) :
    (emit e m).trace = e :: m.trace := by
  unfold emit; rfl

@[simp] theorem emit_result {α : Type} (e : Event) (m : Run α) :
    (emit e m).result = m.result := by
  unfold emit; rfl

@[simp] theorem call_bind {α β : Type} (e : Event) (a : α) (k : α → Run β) :
    call e a >>= k = emit e (k a) := by
  unfold emit; rfl

@[simp] theorem init_bind {β : Type} (w : Env) (f : InitFn) (k : Int → Run β) :
    init w f >>= k = emit (.init f) (k (w.rc f)) := by
  unfold emit; rfl

@[simp] theorem printf_bind {β : Type} (fmt : String) (args : List Arg) (k : Unit → Run β) :
    vmm_printf fmt args >>= k = emit (.vmm_printf fmt args) (k ()) := by
  unfold emit; rfl

@[simp] theorem hang_bind {β : Type} (k : Unit → Run β) :
    vmm_hang >>= k = ⟨[Event.vmm_hang], none⟩ := rfl

@[simp] theorem pure_bind_run {α β : Type} (a : α) (k : α → Run β) :
    (pure a : Run α) >>= k = k a := by
  show Run.andThen _ _ = _
  simp [Run.andThen, pure]

@[simp] theorem ite_bind {α β : Type} (c : Prop) [Decidable c] (a b : Run α) (k : α → Run β) :
    (if c then a else b) >>= k = if c then a >>= k else b >>= k := by
  split <;> rfl

@[simp] theorem ite_trace {α : Type} (c : Prop) [Decidable c] (a b : Run α) :
    (if c then a else b).trace = if c then a.trace else b.trace := by
  split <;> rfl

@[simp] theorem ite_result {α : Type} (c : Prop) [Decidable c] (a b : Run α) :
    (if c then a else b).result = if c then a.result else b.result := by
  split <;> rfl

@[simp] theorem hang_trace : vmm_hang.trace = [Event.vmm_hang] := rfl
@[simp] theorem hang_result : vmm_hang.result = none := rfl


@[simp] theorem prepend_trace {α : Type} (t : List Event) (m : Run α) :
    (prepend t m).trace = t ++ m.trace := rfl

@[simp] theorem prepend_result {α : Type} (t : List Event) (m : Run α) :
    (prepend t m).result = m.result := rfl

theorem guest_loop_result (w : Env) (cs : List vmm_devtree_node_t) (i : Nat) :
    (guest_loop w i cs).result = some () := by
  induction cs generalizing i with
  | nil => rfl
  | cons c cs ih =>
    unfold guest_loop
    by_cases h : (w.guest_create i c).isNone <;> simp [h, ih]

theorem guest_loop_bind {β : Type} (w : Env) (cs : List vmm_devtree_node_t) (i : Nat)
    (k : Unit → Run β) :
    guest_loop w i cs >>= k = prepend (guest_loop w i cs).trace (k ()) := by
  show Run.andThen _ _ = _
  simp [Run.andThen, guest_loop_result, prepend]

theorem guest_loop_cons_trace (w : Env) (c : vmm_devtree_node_t)
    (cs : List vmm_devtree_node_t) (i : Nat) :
    (guest_loop w i (c :: cs)).trace =
      .vmm_printf "Creating %s\n" [.str c.name] :: .vmm_scheduler_guest_create c ::
        ((if (w.guest_create i c).isNone then
            [Event.vmm_printf "Error: Failed to create guest\n" []] else []) ++
          (guest_loop w (i + 1) cs).trace) := by
  rw [guest_loop]
  cases h : w.guest_create i c <;> simp [h]

theorem created_append (s t : List Event) : created (s ++ t) = created s ++ created t := by
  induction s with
  | nil => rfl
  | cons e s ih => cases e <;> simp [created, ih]

theorem created_guest_loop (w : Env) (cs : List vmm_devtree_node_t) (i : Nat) :
    created (guest_loop w i cs).trace = cs := by
  induction cs generalizing i with
  | nil => rfl
  | cons c cs ih =>
    rw [guest_loop_cons_trace]
    cases h : w.guest_create i c <;> simp [created, ih]

theorem actions_append (s t : List Event) : actions (s ++ t) = actions s ++ actions t := by
  simp [actions]

theorem actions_nil : actions [] = [] := rfl

theorem actions_cons (e : Event) (t : List Event) :
    actions (e :: t) = if e.isPrintf = true then actions t else e :: actions t := by
  cases h : e.isPrintf <;> simp [actions, h]

theorem actions_guest_loop (w : Env) (cs : List vmm_devtree_node_t) (i : Nat) :
    actions (guest_loop w i cs).trace = cs.map Event.vmm_scheduler_guest_create := by
  induction cs generalizing i with
  | nil => rfl
  | cons c cs ih =>
    rw [guest_loop_cons_trace]
    cases h : w.guest_create i c <;>
      simp [actions_cons, actions_append, Event.isPrintf, ih]

theorem mem_actions {e : Event} {t : List Event} (he : e ∈ t) (hp : e.isPrintf = false) :
    e ∈ actions t := by
  simp [actions, he, hp]

/-- The loop performs console output and guest creations only. -/
theorem guest_loop_events (w : Env) (cs : List vmm_devtree_node_t) (i : Nat) (e : Event)
    (he : e ∈ (guest_loop w i cs).trace) :
    e.isPrintf = true ∨ ∃ c ∈ cs, e = .vmm_scheduler_guest_create c := by
  cases hp : e.isPrintf with
  | true => exact Or.inl rfl
  | false =>
    right
    have := mem_actions he hp
    rw [actions_guest_loop] at this
    simpa [eq_comm] using this

/-- When every initialiser returns 0, `vmm_init` performs `boot_trace` and
then `guest_stage_trace`, and does not return. -/
theorem vmm_init_ok (w : Env) (h : ∀ f, w.rc f = 0) :
    vmm_init w = ⟨boot_trace w ++ guest_stage_trace w, none⟩ := by
  unfold vmm_init
  simp only [h, init_bind, printf_bind, call_bind, ite_bind, hang_bind, pure_bind_run,
    guest_loop_bind, ne_eq, not_true_eq_false, if_false]
  cases hg : w.devtree_getnode (guestinfo_path w) <;>
    simp [boot_trace, guest_stage_trace, hg, guestinfo_path, prepend, Run.ext_iff] at *

theorem After.start {P : Run Unit → Prop} {r : Run Unit} (h : After P [] r) : P r := h.out

theorem After.emit {P : Run Unit → Prop} {acc : List Event} {e : Event} {r : Run Unit}
    (h : After P (acc ++ [e]) r) : After P acc (emit e r) := by
  constructor
  simpa using h.out

theorem After.ite {P : Run Unit → Prop} {acc : List Event} {c : Prop} [Decidable c]
    {a b : Run Unit} (ha : c → After P acc a) (hb : ¬ c → After P acc b) :
    After P acc (if c then a else b) := by
  split
  · exact ha ‹_›
  · exact hb ‹_›

set_option maxHeartbeats 4000000 in
/-- When some initialiser returns non-zero, `vmm_init` does not return, ends in
`vmm_hang` and never gets to the guest stage. -/
theorem vmm_init_fail (w : Env) (h : ¬ ∀ f, w.rc f = 0) : Stopped (vmm_init w) := by
  apply After.start
  unfold vmm_init
  simp only [↓init_bind, ↓printf_bind, ↓call_bind, ↓ite_bind, ↓hang_bind, ↓pure_bind_run,
    ↓guest_loop_bind, ne_eq, ite_not]
  repeat' first
    | apply After.emit
    | (apply After.ite <;> intro _)
  all_goals first
    | (exfalso; apply h; intro f; cases f <;> assumption)
    | (constructor
       simp only [Stopped, List.nil_append, List.append_assoc, List.cons_append, hang_trace,
         hang_result]
       refine ⟨trivial, ?_, ?_, ?_, ?_⟩
       · simp
       · simp [Event.isBootOnly]
       · simp [actions, Event.isPrintf]
       · simp [actions, Event.isPrintf, init_order])

/-! ## Claims about `vmm_init` -/

set_option maxHeartbeats 4000000 in
/-- C1: initialisation errors are fatal and fail-stop.  For every `k` in
1..20 and every non-zero return code: if the first `k-1` initialisers (in
source order) return 0 and the `k`-th returns non-zero, then `vmm_init` does
not return and ends in `vmm_hang`, calls none of the later initialisers, calls
`vmm_scheduler_guest_create` for no node, and does not call
`vmm_timer_start`. -/
theorem vmm_init_fail_stop (w : Env) (k : Nat) (f : InitFn)
    (hk : 1 ≤ k ∧ k ≤ 20)
    (hprev : ∀ g ∈ init_order.take (k - 1), w.rc g = 0)
    (hf : init_order[k - 1]? = some f) (hfail : w.rc f ≠ 0) :
    (vmm_init w).result = none ∧
    (vmm_init w).trace.getLast? = some .vmm_hang ∧
    (∀ g ∈ init_order.drop k, Event.init g ∉ (vmm_init w).trace) ∧
    (∀ n, Event.vmm_scheduler_guest_create n ∉ (vmm_init w).trace) ∧
    Event.vmm_timer_start ∉ (vmm_init w).trace := by
  obtain ⟨h1, h2⟩ := hk
  interval_cases k <;> simp [init_order] at hf hprev <;> subst hf <;>
    simp only [vmm_init, ↓init_bind, ↓printf_bind, ↓call_bind, ↓ite_bind, ↓hang_bind,
      ↓pure_bind_run, ne_eq, hprev, hfail, not_true_eq_false, not_false_eq_true, if_true,
      if_false, emit_trace, emit_result, hang_trace, hang_result] <;>
    simp [init_order]

/-- C1, at `env_fail`: the fifth initialiser, `vmm_cpu_early_init`, returns -1. -/
theorem vmm_init_fail_stop_witness :
    (vmm_init (env_fail .vmm_cpu_early_init (-1))).result = none ∧
    (vmm_init (env_fail .vmm_cpu_early_init (-1))).trace.getLast? = some .vmm_hang ∧
    (∀ g ∈ init_order.drop 5,
      Event.init g ∉ (vmm_init (env_fail .vmm_cpu_early_init (-1))).trace) ∧
    (∀ n, Event.vmm_scheduler_guest_create n ∉
      (vmm_init (env_fail .vmm_cpu_early_init (-1))).trace) ∧
    Event.vmm_timer_start ∉ (vmm_init (env_fail .vmm_cpu_early_init (-1))).trace :=
  vmm_init_fail_stop (env_fail .vmm_cpu_early_init (-1)) 5 .vmm_cpu_early_init
    ⟨by decide, by decide⟩ (by simp [init_order, env_fail]) rfl (by simp [env_fail])

theorem created_boot_trace (w : Env) : created (boot_trace w) = [] := by
  simp [boot_trace, created]

theorem timer_start_not_mem_boot_trace (w : Env) : Event.vmm_timer_start ∉ boot_trace w := by
  simp [boot_trace]

theorem timer_start_not_mem_guest_loop (w : Env) (cs : List vmm_devtree_node_t) (i : Nat) :
    Event.vmm_timer_start ∉ (guest_loop w i cs).trace := by
  intro h
  rcases guest_loop_events w cs i _ h with h | ⟨c, _, h⟩
  · simp [Event.isPrintf] at h
  · simp at h

/-- C2: guest-creation failures are isolated to the failing guest.  When
every initialiser returns 0 and the guest-info node exists with children `cs`,
then whatever `vmm_scheduler_guest_create` answers to each call, the nodes it
is called on are exactly `cs`, once each and in list order, and
`vmm_timer_start` is called exactly once, after all of them. -/
theorem vmm_init_guest_isolation (w : Env) (cs : List vmm_devtree_node_t)
    (hok : ∀ f, w.rc f = 0) (hnode : w.devtree_getnode (guestinfo_path w) = some cs) :
    created (vmm_init w).trace = cs ∧
    (vmm_init w).trace.count .vmm_timer_start = 1 ∧
    ∃ pre, (vmm_init w).trace =
        pre ++ [.vmm_printf "Starting Hypervisor Timer\n" [], .vmm_timer_start, .vmm_hang] ∧
      created pre = cs := by
  have hb := timer_start_not_mem_boot_trace w
  have hg := timer_start_not_mem_guest_loop w cs 0
  rw [vmm_init_ok w hok]
  simp only [guest_stage_trace, hnode]
  refine ⟨?_, ?_, boot_trace w ++ (guest_loop w 0 cs).trace, by simp, ?_⟩
  · simp [created_append, created_boot_trace, created_guest_loop, created]
  · simp [List.count_append, List.count_eq_zero_of_not_mem hb,
      List.count_eq_zero_of_not_mem hg, List.count_cons]
  · simp [created_append, created_boot_trace, created_guest_loop]

/-- C2, at `env_ok`: two children, the first creation fails, the second
succeeds. -/
theorem vmm_init_guest_isolation_witness :
    env_ok.guest_create 0 ⟨"guest0"⟩ = none ∧
    created (vmm_init env_ok).trace = [⟨"guest0"⟩, ⟨"guest1"⟩] ∧
    (vmm_init env_ok).trace.count .vmm_timer_start = 1 ∧
    ∃ pre, (vmm_init env_ok).trace =
        pre ++ [.vmm_printf "Starting Hypervisor Timer\n" [], .vmm_timer_start, .vmm_hang] ∧
      created pre = [⟨"guest0"⟩, ⟨"guest1"⟩] :=
  ⟨rfl, vmm_init_guest_isolation env_ok [⟨"guest0"⟩, ⟨"guest1"⟩] (fun _ => rfl) rfl⟩

theorem actions_boot_trace (w : Env) :
    actions (boot_trace w) =
      init_order.map Event.init ++ [.vmm_devtree_getnode (guestinfo_path w)] := by
  simp [boot_trace, actions, Event.isPrintf, init_order]

/-- C8: when every initialiser returns 0 and the guest-info node exists with
children `cs`, the calls `vmm_init` makes, console output aside, are: the
twenty initialisers once each in the order heap, device tree, host address
space, host IRQ, CPU early, board early, stdio, timer, scheduler,
hyperthreading, device driver, device emulation, chardev, blockdev, netdev,
vserial, mterm, modules, CPU final, board final; the lookup of the guest-info
node; guest creation for each child; `vmm_timer_start`; and then `vmm_hang`,
so that `vmm_init` never returns. -/
theorem vmm_init_order (w : Env) (cs : List vmm_devtree_node_t)
    (hok : ∀ f, w.rc f = 0) (hnode : w.devtree_getnode (guestinfo_path w) = some cs) :
    actions (vmm_init w).trace =
      [.init .vmm_heap_init, .init .vmm_devtree_init, .init .vmm_host_aspace_init,
       .init .vmm_host_irq_init, .init .vmm_cpu_early_init, .init .vmm_board_early_init,
       .init .vmm_stdio_init, .init .vmm_timer_init, .init .vmm_scheduler_init,
       .init .vmm_hyperthreading_init, .init .vmm_devdrv_init, .init .vmm_devemu_init,
       .init .vmm_chardev_init, .init .vmm_blockdev_init, .init .vmm_netdev_init,
       .init .vmm_vserial_init, .init .vmm_mterm_init, .init .vmm_modules_init,
       .init .vmm_cpu_final_init, .init .vmm_board_final_init,
       .vmm_devtree_getnode (guestinfo_path w)]
      ++ cs.map Event.vmm_scheduler_guest_create
      ++ [.vmm_timer_start, .vmm_hang] ∧
    (vmm_init w).result = none := by
  rw [vmm_init_ok w hok]
  refine ⟨?_, rfl⟩
  simp only [guest_stage_trace, hnode]
  rw [actions_append, actions_append, actions_boot_trace, actions_guest_loop]
  simp [actions_cons, actions_nil, Event.isPrintf, init_order]

/-- C8, at `env_ok`. -/
theorem vmm_init_order_witness :
    actions (vmm_init env_ok).trace =
      [.init .vmm_heap_init, .init .vmm_devtree_init, .init .vmm_host_aspace_init,
       .init .vmm_host_irq_init, .init .vmm_cpu_early_init, .init .vmm_board_early_init,
       .init .vmm_stdio_init, .init .vmm_timer_init, .init .vmm_scheduler_init,
       .init .vmm_hyperthreading_init, .init .vmm_devdrv_init, .init .vmm_devemu_init,
       .init .vmm_chardev_init, .init .vmm_blockdev_init, .init .vmm_netdev_init,
       .init .vmm_vserial_init, .init .vmm_mterm_init, .init .vmm_modules_init,
       .init .vmm_cpu_final_init, .init .vmm_board_final_init,
       .vmm_devtree_getnode "/guests",
       .vmm_scheduler_guest_create ⟨"guest0"⟩, .vmm_scheduler_guest_create ⟨"guest1"⟩,
       .vmm_timer_start, .vmm_hang] ∧
    (vmm_init env_ok).result = none :=
  vmm_init_order env_ok [⟨"guest0"⟩, ⟨"guest1"⟩] (fun _ => rfl) rfl

theorem Stopped.not_mem {r : Run Unit} (h : Stopped r) {e : Event}
    (he : e.isBootOnly = false) : e ∉ r.trace := by
  intro hm
  have := h.2.2.1 e hm
  simp [he] at this

theorem Stopped.count_init_le {r : Run Unit} (h : Stopped r) (f : InitFn) :
    r.trace.count (.init f) ≤ 1 := by
  obtain ⟨_, _, _, hlast, hpre⟩ := h
  have h1 : r.trace.count (.init f) = (actions r.trace).count (.init f) := by
    unfold actions
    rw [List.count_filter]
    rfl
  have h2 : (actions r.trace).dropLast ++ [Event.vmm_hang] = actions r.trace :=
    List.dropLast_append_getLast? _ (by simp [hlast])
  have h3 : ((actions r.trace).dropLast).count (.init f) ≤
      (init_order.map Event.init).count (.init f) := hpre.sublist.count_le _
  have h4 : (init_order.map Event.init).count (.init f) = 1 := by
    cases f <;> decide
  rw [h1, ← h2, List.count_append]
  have h5 : [Event.vmm_hang].count (.init f) = 0 := by simp
  omega

/-- After the lookup of the guest-info node `vmm_init` performs console
output, guest creations, `vmm_timer_start` and `vmm_hang` only. -/
theorem guest_stage_events (w : Env) (e : Event) (he : e ∈ guest_stage_trace w) :
    e.isPrintf = true ∨ (∃ c, e = .vmm_scheduler_guest_create c) ∨
      e = .vmm_timer_start ∨ e = .vmm_hang := by
  unfold guest_stage_trace at he
  cases hg : w.devtree_getnode (guestinfo_path w) with
  | none =>
    simp only [hg, List.mem_cons, List.mem_singleton, List.not_mem_nil, or_false] at he
    rcases he with rfl | rfl
    · exact Or.inl rfl
    · exact Or.inr (Or.inr (Or.inr rfl))
  | some cs =>
    simp only [hg, List.mem_append, List.mem_cons, List.mem_singleton, List.not_mem_nil,
      or_false] at he
    rcases he with he | rfl | rfl | rfl
    · rcases guest_loop_events w cs 0 e he with h | ⟨c, _, h⟩
      · exact Or.inl h
      · exact Or.inr (Or.inl ⟨c, h⟩)
    · exact Or.inl rfl
    · exact Or.inr (Or.inr (Or.inl rfl))
    · exact Or.inr (Or.inr (Or.inr rfl))

theorem init_not_mem_guest_stage (w : Env) (f : InitFn) :
    Event.init f ∉ guest_stage_trace w := by
  intro h
  rcases guest_stage_events w _ h with h | ⟨c, h⟩ | h | h <;> simp [Event.isPrintf] at h

theorem count_eq_count_actions (t : List Event) (e : Event) (he : e.isPrintf = false) :
    t.count e = (actions t).count e := by
  unfold actions
  rw [List.count_filter]
  simp [he]

theorem mem_of_mem_actions {e : Event} {t : List Event} (h : e ∈ actions t) : e ∈ t :=
  (List.mem_filter.mp h).1

theorem count_init_boot_trace (w : Env) (f : InitFn) :
    (boot_trace w).count (.init f) = 1 := by
  rw [count_eq_count_actions (boot_trace w) (.init f) rfl, actions_boot_trace,
    List.count_append]
  have h1 : (init_order.map Event.init).count (.init f) = 1 := by cases f <;> decide
  have h2 : [Event.vmm_devtree_getnode (guestinfo_path w)].count (.init f) = 0 := by simp
  omega

theorem init_mem_boot_trace (w : Env) (f : InitFn) : Event.init f ∈ boot_trace w := by
  apply mem_of_mem_actions
  rw [actions_boot_trace]
  cases f <;> simp [init_order]

theorem guest_create_not_mem_boot_trace (w : Env) (n : vmm_devtree_node_t) :
    Event.vmm_scheduler_guest_create n ∉ boot_trace w := by
  intro h
  have := mem_actions h rfl
  rw [actions_boot_trace] at this
  simp [init_order] at this

/-- C3: in every run of `vmm_init`, `vmm_cpu_early_init` is called at most
once, and whenever `vmm_scheduler_guest_create` is called, both
`vmm_cpu_early_init` and `vmm_cpu_final_init` have been called before that
call and have returned 0. -/
theorem vmm_init_cpu_init_before_guests (w : Env) :
    (vmm_init w).trace.count (.init .vmm_cpu_early_init) ≤ 1 ∧
    ∀ pre n post, (vmm_init w).trace = pre ++ .vmm_scheduler_guest_create n :: post →
      (Event.init .vmm_cpu_early_init ∈ pre ∧ w.rc .vmm_cpu_early_init = 0) ∧
      (Event.init .vmm_cpu_final_init ∈ pre ∧ w.rc .vmm_cpu_final_init = 0) := by
  by_cases hok : ∀ f, w.rc f = 0
  · rw [vmm_init_ok w hok]
    constructor
    · have h1 := count_init_boot_trace w .vmm_cpu_early_init
      have h2 := List.count_eq_zero_of_not_mem
        (init_not_mem_guest_stage w .vmm_cpu_early_init)
      simp only [List.count_append, h1, h2]
      omega
    · intro pre n post h
      have hb1 := init_mem_boot_trace w .vmm_cpu_early_init
      have hb2 := init_mem_boot_trace w .vmm_cpu_final_init
      have hb3 := guest_create_not_mem_boot_trace w n
      have hsub : ∀ e ∈ boot_trace w, e ∈ pre := by
        rcases List.append_eq_append_iff.mp h with ⟨a, ha, _⟩ | ⟨c, hc, hc2⟩
        · intro e he
          rw [ha]
          exact List.mem_append_left _ he
        · cases c with
          | nil =>
            intro e he
            simpa [hc] using he
          | cons x c =>
            exfalso
            simp only [List.cons_append, List.cons.injEq] at hc2
            apply hb3
            rw [hc, hc2.1]
            simp
      exact ⟨⟨hsub _ hb1, hok _⟩, ⟨hsub _ hb2, hok _⟩⟩
  · have hs := vmm_init_fail w hok
    refine ⟨hs.count_init_le _, ?_⟩
    intro pre n post h
    exfalso
    refine hs.not_mem (e := .vmm_scheduler_guest_create n) rfl ?_
    rw [h]
    simp

/-- C3, at `env_ok`: the first guest creation comes after the events
`boot_trace` lists. -/
theorem vmm_init_cpu_init_before_guests_witness :
    (Event.init .vmm_cpu_early_init ∈
        boot_trace env_ok ++ [.vmm_printf "Creating %s\n" [.str "guest0"]] ∧
      env_ok.rc .vmm_cpu_early_init = 0) ∧
    (Event.init .vmm_cpu_final_init ∈
        boot_trace env_ok ++ [.vmm_printf "Creating %s\n" [.str "guest0"]] ∧
      env_ok.rc .vmm_cpu_final_init = 0) :=
  (vmm_init_cpu_init_before_guests env_ok).2
    (boot_trace env_ok ++ [.vmm_printf "Creating %s\n" [.str "guest0"]]) ⟨"guest0"⟩
    [.vmm_printf "Error: Failed to create guest\n" [],
     .vmm_printf "Creating %s\n" [.str "guest1"],
     .vmm_scheduler_guest_create ⟨"guest1"⟩,
     .vmm_printf "Starting Hypervisor Timer\n" [], .vmm_timer_start, .vmm_hang]
    (by rw [vmm_init_ok env_ok (fun _ => rfl)]; rfl)

theorem error_printf_not_mem_boot_trace (w : Env) (v : Int) :
    Event.vmm_printf "Error %d\n" [.int v] ∉ boot_trace w := by
  simp [boot_trace]

theorem banner_mem_boot_trace (w : Env) :
    Event.vmm_printf "Populating Guest Instances\n" [] ∈ boot_trace w := by
  simp [boot_trace]

/-- C10: a run of `vmm_init` gets to the guest stage (prints its banner)
exactly when every initialiser has returned 0, so that `ret`, which holds the
return code of `vmm_board_final_init` there, is 0.  Hence, when every
initialiser returns 0 and the guest-info node is missing, the run ends with
the banner, the lookup, the diagnostic `Error 0` and `vmm_hang`; and whenever
the node is missing, whatever the return codes, `vmm_init` does not return,
creates no guest, does not start the timer, and a run that got to the guest
stage prints no `Error` line other than `Error 0`. -/
theorem vmm_init_guest_stage_ret (w : Env) :
    ((∀ f, w.rc f = 0) →
      Event.vmm_printf "Populating Guest Instances\n" [] ∈ (vmm_init w).trace) ∧
    (Event.vmm_printf "Populating Guest Instances\n" [] ∈ (vmm_init w).trace →
      (∀ f, w.rc f = 0) ∧ w.rc .vmm_board_final_init = 0) ∧
    ((∀ f, w.rc f = 0) → w.devtree_getnode (guestinfo_path w) = none →
      ∃ pre, (vmm_init w).trace = pre ++
        [.vmm_printf "Populating Guest Instances\n" [],
         .vmm_devtree_getnode (guestinfo_path w),
         .vmm_printf "Error %d\n" [.int 0], .vmm_hang]) ∧
    (w.devtree_getnode (guestinfo_path w) = none →
      (vmm_init w).result = none ∧
      (vmm_init w).trace.getLast? = some .vmm_hang ∧
      (∀ n, Event.vmm_scheduler_guest_create n ∉ (vmm_init w).trace) ∧
      Event.vmm_timer_start ∉ (vmm_init w).trace ∧
      (Event.vmm_printf "Populating Guest Instances\n" [] ∈ (vmm_init w).trace →
        ∀ v, Event.vmm_printf "Error %d\n" [.int v] ∈ (vmm_init w).trace → v = 0)) := by
  by_cases hok : ∀ f, w.rc f = 0
  · refine ⟨fun _ => ?_, fun _ => ⟨hok, hok _⟩, fun _ hnone => ?_, fun hnone => ?_⟩
    · rw [vmm_init_ok w hok]
      exact List.mem_append_left _ (banner_mem_boot_trace w)
    · rw [vmm_init_ok w hok]
      simp only [guest_stage_trace, hnone]
      exact ⟨(boot_trace w).take 42, by simp [boot_trace]⟩
    · rw [vmm_init_ok w hok]
      simp only [guest_stage_trace, hnone]
      refine ⟨trivial, by simp, ?_, ?_, fun _ => ?_⟩
      · intro n hn
        rcases List.mem_append.mp hn with h | h
        · exact guest_create_not_mem_boot_trace w n h
        · simp at h
      · intro hn
        rcases List.mem_append.mp hn with h | h
        · exact timer_start_not_mem_boot_trace w h
        · simp at h
      · intro v hv
        rcases List.mem_append.mp hv with h | h
        · exact absurd h (error_printf_not_mem_boot_trace w v)
        · simpa using h
  · have hs := vmm_init_fail w hok
    have hp : Event.vmm_printf "Populating Guest Instances\n" [] ∉ (vmm_init w).trace :=
      hs.not_mem (by simp [Event.isBootOnly])
    refine ⟨fun h => absurd h hok, fun h => absurd h hp, fun h => absurd h hok,
      fun _ => ⟨hs.1, hs.2.1, ?_, ?_, fun h => absurd h hp⟩⟩
    · exact fun n => hs.not_mem rfl
    · exact hs.not_mem rfl

/-- C10, at `env_no_guestinfo`: every initialiser returns 0 and the
guest-info node is missing; the run gets to the guest stage and ends with the
banner, the lookup, `Error 0` and `vmm_hang`. -/
theorem vmm_init_guest_stage_ret_witness :
    Event.vmm_printf "Populating Guest Instances\n" [] ∈
      (vmm_init env_no_guestinfo).trace ∧
    (∃ pre, (vmm_init env_no_guestinfo).trace = pre ++
      [.vmm_printf "Populating Guest Instances\n" [],
       .vmm_devtree_getnode (guestinfo_path env_no_guestinfo),
       .vmm_printf "Error %d\n" [.int 0], .vmm_hang]) ∧
    (∀ v, Event.vmm_printf "Error %d\n" [.int v] ∈
      (vmm_init env_no_guestinfo).trace → v = 0) :=
  ⟨(vmm_init_guest_stage_ret env_no_guestinfo).1 (fun _ => rfl),
   (vmm_init_guest_stage_ret env_no_guestinfo).2.2.1 (fun _ => rfl) rfl,
   ((vmm_init_guest_stage_ret env_no_guestinfo).2.2.2 rfl).2.2.2.2
     ((vmm_init_guest_stage_ret env_no_guestinfo).1 (fun _ => rfl))⟩

/-! ## Diagnostics of the CPU initialisers -/

theorem vmm_init_cpu_early_fail (w : Env) (hprev : ∀ g ∈ init_order.take 4, w.rc g = 0)
    (hfail : w.rc .vmm_cpu_early_init ≠ 0) :
    vmm_init w =
      ⟨[.init .vmm_heap_init, .init .vmm_devtree_init, .init .vmm_host_aspace_init,
        .init .vmm_host_irq_init, .init .vmm_cpu_early_init, .vmm_hang], none⟩ := by
  simp [init_order] at hprev
  simp only [vmm_init, ↓init_bind, ↓printf_bind, ↓call_bind, ↓ite_bind, ↓hang_bind,
    ↓pure_bind_run, ne_eq, hprev, hfail, not_true_eq_false, not_false_eq_true, if_true,
    if_false]
  simp [Run.ext_iff]

theorem vmm_init_cpu_final_fail (w : Env) (hprev : ∀ g ∈ init_order.take 18, w.rc g = 0)
    (hfail : w.rc .vmm_cpu_final_init ≠ 0) :
    vmm_init w =
      ⟨(boot_trace w).take 39 ++ [.init .vmm_cpu_final_init,
        .vmm_printf "Error %d\n" [.int (w.rc .vmm_cpu_final_init)], .vmm_hang], none⟩ := by
  simp [init_order] at hprev
  simp only [vmm_init, ↓init_bind, ↓printf_bind, ↓call_bind, ↓ite_bind, ↓hang_bind,
    ↓pure_bind_run, ne_eq, hprev, hfail, not_true_eq_false, not_false_eq_true, if_true,
    if_false]
  simp [Run.ext_iff, boot_trace]

/-- C4 as stated fails: when `vmm_cpu_early_init` returns 1 and the four
initialisers before it return 0, `vmm_init` calls `vmm_printf` not once. -/
theorem vmm_init_cpu_early_no_diagnostic :
    (∀ g ∈ init_order.take 4, (env_fail .vmm_cpu_early_init 1).rc g = 0) ∧
    (env_fail .vmm_cpu_early_init 1).rc .vmm_cpu_early_init ≠ 0 ∧
    (vmm_init (env_fail .vmm_cpu_early_init 1)).trace.getLast? = some .vmm_hang ∧
    ¬ ∃ fmt args, Event.vmm_printf fmt args ∈
        (vmm_init (env_fail .vmm_cpu_early_init 1)).trace := by
  have h1 : ∀ g ∈ init_order.take 4, (env_fail .vmm_cpu_early_init 1).rc g = 0 := by
    simp [init_order, env_fail]
  have h2 : (env_fail .vmm_cpu_early_init 1).rc .vmm_cpu_early_init ≠ 0 := by
    simp [env_fail]
  refine ⟨h1, h2, ?_, ?_⟩ <;> rw [vmm_init_cpu_early_fail _ h1 h2] <;> simp

/-- C4, amended: when `vmm_cpu_final_init` returns non-zero, the eighteen
initialisers before it having returned 0, `vmm_init` prints `Error %d` with
that return code right after the call and then ends in `vmm_hang`; when
`vmm_cpu_early_init` returns non-zero, the four initialisers before it having
returned 0, `vmm_init` ends in `vmm_hang` right after the call, without any
console output. -/
theorem vmm_init_cpu_diagnostic (w : Env) :
    ((∀ g ∈ init_order.take 18, w.rc g = 0) → w.rc .vmm_cpu_final_init ≠ 0 →
      (vmm_init w).result = none ∧
      ∃ pre, (vmm_init w).trace = pre ++ [.init .vmm_cpu_final_init,
        .vmm_printf "Error %d\n" [.int (w.rc .vmm_cpu_final_init)], .vmm_hang]) ∧
    ((∀ g ∈ init_order.take 4, w.rc g = 0) → w.rc .vmm_cpu_early_init ≠ 0 →
      (vmm_init w).result = none ∧
      (vmm_init w).trace =
        [.init .vmm_heap_init, .init .vmm_devtree_init, .init .vmm_host_aspace_init,
         .init .vmm_host_irq_init, .init .vmm_cpu_early_init, .vmm_hang]) := by
  constructor
  · intro hprev hfail
    rw [vmm_init_cpu_final_fail w hprev hfail]
    exact ⟨rfl, _, rfl⟩
  · intro hprev hfail
    rw [vmm_init_cpu_early_fail w hprev hfail]
    exact ⟨rfl, rfl⟩

/-- C4, amended, at `env_fail`: `vmm_cpu_final_init` returns -22, and
`vmm_cpu_early_init` returns -22. -/
theorem vmm_init_cpu_diagnostic_witness :
    ((vmm_init (env_fail .vmm_cpu_final_init (-22))).result = none ∧
      ∃ pre, (vmm_init (env_fail .vmm_cpu_final_init (-22))).trace =
        pre ++ [.init .vmm_cpu_final_init,
          .vmm_printf "Error %d\n"
            [.int ((env_fail .vmm_cpu_final_init (-22)).rc .vmm_cpu_final_init)],
          .vmm_hang]) ∧
    ((vmm_init (env_fail .vmm_cpu_early_init (-22))).result = none ∧
      (vmm_init (env_fail .vmm_cpu_early_init (-22))).trace =
        [.init .vmm_heap_init, .init .vmm_devtree_init, .init .vmm_host_aspace_init,
         .init .vmm_host_irq_init, .init .vmm_cpu_early_init, .vmm_hang]) :=
  ⟨(vmm_init_cpu_diagnostic (env_fail .vmm_cpu_final_init (-22))).1
      (by simp [init_order, env_fail]) (by simp [env_fail]),
   (vmm_init_cpu_diagnostic (env_fail .vmm_cpu_early_init (-22))).2
      (by simp [init_order, env_fail]) (by simp [env_fail])⟩

/-! ## Claims about `cpu_vm.h` -/

/-- C5: the I/O intercept table is 12 KiB (12288 bytes), the MSR intercept
table 8 KiB (8192 bytes), and for every 16-bit port number `n` the byte of a
dense bitmap that holds bit `n`, byte `n / 8`, lies inside the I/O table. -/
theorem intercept_table_sizes :
    IO_INTCPT_TBL_SZ = 12288 ∧ IO_INTCPT_TBL_SZ = 12 * 1024 ∧
    MSR_INTCPT_TBL_SZ = 8192 ∧ MSR_INTCPT_TBL_SZ = 8 * 1024 ∧
    ∀ n, n < 65536 → n / 8 < IO_INTCPT_TBL_SZ := by
  have h : IO_INTCPT_TBL_SZ = 12288 := by decide
  refine ⟨h, by decide, by decide, by decide, ?_⟩
  intro n hn
  rw [h]
  omega

/-- C5, at the highest port number. -/
theorem intercept_table_sizes_witness : 65535 / 8 < IO_INTCPT_TBL_SZ :=
  intercept_table_sizes.2.2.2.2 65535 (by decide)

/-- C6: each of the six class masks is non-zero and contained in
`USER_ITC_ALL`, and any two distinct ones among them are disjoint. -/
theorem intercept_classes_covered :
    (∀ c ∈ [USER_ITC_SWINT, USER_ITC_TASKSWITCH, USER_ITC_SYSCALL, USER_ITC_IRET,
        USER_SINGLE_STEPPING, USER_UNPACK], c ≠ 0 ∧ c &&& USER_ITC_ALL = c) ∧
    (∀ c1 ∈ [USER_ITC_SWINT, USER_ITC_TASKSWITCH, USER_ITC_SYSCALL, USER_ITC_IRET,
        USER_SINGLE_STEPPING, USER_UNPACK],
      ∀ c2 ∈ [USER_ITC_SWINT, USER_ITC_TASKSWITCH, USER_ITC_SYSCALL, USER_ITC_IRET,
        USER_SINGLE_STEPPING, USER_UNPACK], c1 ≠ c2 → c1 &&& c2 = 0) ∧
    [USER_ITC_SWINT, USER_ITC_TASKSWITCH, USER_ITC_SYSCALL, USER_ITC_IRET,
        USER_SINGLE_STEPPING, USER_UNPACK].Nodup := by
  decide

/-- C6, at the system-call and return-from-interrupt classes. -/
theorem intercept_classes_covered_witness :
    (USER_ITC_SYSCALL ≠ 0 ∧ USER_ITC_SYSCALL &&& USER_ITC_ALL = USER_ITC_SYSCALL) ∧
    USER_ITC_SYSCALL &&& USER_ITC_IRET = 0 :=
  ⟨intercept_classes_covered.1 USER_ITC_SYSCALL (by decide),
   intercept_classes_covered.2.1 USER_ITC_SYSCALL (by decide) USER_ITC_IRET (by decide)
     (by decide)⟩

theorem clear_bits_or_of_disjoint (a m : Nat) (h : a &&& m = 0) :
    clear_bits (a ||| m) m = a := by
  apply Nat.eq_of_testBit_eq
  intro i
  have hi : (a &&& m).testBit i = false := by simp [h]
  rw [Nat.testBit_and] at hi
  simp only [clear_bits, Nat.testBit_xor, Nat.testBit_and, Nat.testBit_or]
  cases ha : a.testBit i <;> cases hm : m.testBit i <;> simp_all

/-- Under any correspondence between classes and table bits, arming and then
disarming a class that was armed before leaves it disarmed. -/
theorem round_trip_clears_armed (hw : InterceptMap) :
    (cpu_disable_vcpu_intercept hw
      (cpu_enable_vcpu_intercept hw ctx_swint_armed USER_ITC_SWINT) USER_ITC_SWINT).itc_flag
      = 0 := by
  simp only [cpu_disable_vcpu_intercept, cpu_enable_vcpu_intercept, ctx_swint_armed]
  decide

/-- C7 as stated fails: with the software-interrupt class already armed,
enabling and then disabling `USER_ITC_SWINT` leaves `itc_flag` at 0, not at
its value before the enable call; and with a table bit of that class already
set, the same two calls leave the I/O table at 0, not at its contents before
the enable call. -/
theorem intercept_round_trip_fails :
    valid_class_mask USER_ITC_SWINT ∧
    ctx_swint_armed.itc_flag = 1 ∧
    (cpu_disable_vcpu_intercept hw_sample
      (cpu_enable_vcpu_intercept hw_sample ctx_swint_armed USER_ITC_SWINT)
      USER_ITC_SWINT).itc_flag = 0 ∧
    (cpu_disable_vcpu_intercept hw_sample
      (cpu_enable_vcpu_intercept hw_sample ctx_swint_armed USER_ITC_SWINT)
      USER_ITC_SWINT).itc_flag ≠ ctx_swint_armed.itc_flag ∧
    ctx_io_bit_set.io_intercept_table = 1 ∧
    (cpu_disable_vcpu_intercept hw_sample
      (cpu_enable_vcpu_intercept hw_sample ctx_io_bit_set USER_ITC_SWINT)
      USER_ITC_SWINT).io_intercept_table = 0 := by
  decide

/-- C7, amended: for every context and every valid class mask `m` none of
whose classes is armed and none of whose table bits is set before the call,
`cpu_enable_vcpu_intercept` followed by `cpu_disable_vcpu_intercept` with the
same mask gives back the context, `itc_flag` and both tables included. -/
theorem intercept_round_trip (hw : InterceptMap) (context : vcpu_hw_context) (m : Nat)
    (_hm : valid_class_mask m)
    (hflag : context.itc_flag &&& m = 0)
    (hio : context.io_intercept_table &&& hw.io_bits m = 0)
    (hmsr : context.msr_intercept_table &&& hw.msr_bits m = 0) :
    cpu_disable_vcpu_intercept hw (cpu_enable_vcpu_intercept hw context m) m = context := by
  simp only [cpu_disable_vcpu_intercept, cpu_enable_vcpu_intercept,
    clear_bits_or_of_disjoint _ _ hflag, clear_bits_or_of_disjoint _ _ hio,
    clear_bits_or_of_disjoint _ _ hmsr]

/-- C7, amended, at `ctx_idle` and the mask of all classes. -/
theorem intercept_round_trip_witness :
    cpu_disable_vcpu_intercept hw_sample
      (cpu_enable_vcpu_intercept hw_sample ctx_idle USER_ITC_ALL) USER_ITC_ALL = ctx_idle :=
  intercept_round_trip hw_sample ctx_idle USER_ITC_ALL (by decide) (by decide) (by decide)
    (by decide)

/-! ## `vmm_reset` and `vmm_shutdown` -/

theorem panic_bind_hang (w : Env) (msg : String) :
    (vmm_panic w msg >>= fun _ => vmm_hang) =
      ⟨.vmm_panic msg :: (if w.panic_returns then [.vmm_hang] else []), none⟩ := by
  show Run.andThen _ _ = _
  cases h : w.panic_returns <;> simp [Run.andThen, vmm_panic, h]

theorem vmm_reset_eq (w : Env) :
    vmm_reset w =
      ⟨[.vmm_printf "Stopping Hypervisor Timer Subsytem\n" [], .vmm_timer_stop,
        .vmm_printf "Issuing Board Reset\n" [], .vmm_board_reset] ++
        after_board w w.board_reset "Error: Board reset failed.\n", none⟩ := by
  unfold vmm_reset after_board
  simp only [↓printf_bind, ↓call_bind, ↓ite_bind, ↓panic_bind_hang, ↓pure_bind_run]
  by_cases h : w.board_reset = 0 <;> simp [h, Run.ext_iff]

theorem vmm_shutdown_eq (w : Env) :
    vmm_shutdown w =
      ⟨[.vmm_printf "Stopping Hypervisor Timer Subsytem\n" [], .vmm_timer_stop,
        .vmm_printf "Issuing Board Shutdown\n" [], .vmm_board_shutdown] ++
        after_board w w.board_shutdown "Error: Board shutdown failed.\n", none⟩ := by
  unfold vmm_shutdown after_board
  simp only [↓printf_bind, ↓call_bind, ↓ite_bind, ↓panic_bind_hang, ↓pure_bind_run]
  by_cases h : w.board_shutdown = 0 <;> simp [h, Run.ext_iff]

theorem after_board_counts (w : Env) (rc : Int) (msg : String) :
    (after_board w rc msg).count .vmm_timer_stop = 0 ∧
    (after_board w rc msg).count .vmm_board_reset = 0 ∧
    (after_board w rc msg).count .vmm_board_shutdown = 0 ∧
    ((∃ m, Event.vmm_panic m ∈ after_board w rc msg) ↔ rc ≠ 0) := by
  unfold after_board
  by_cases h : rc = 0 <;> cases hp : w.panic_returns <;> simp [h]

theorem after_board_shape (w : Env) (rc rc2 : Int) (msg msg2 : String)
    (h : rc = 0 ↔ rc2 = 0) :
    (after_board w rc msg).map Event.shape = (after_board w rc2 msg2).map Event.shape := by
  unfold after_board
  by_cases h1 : rc = 0
  · simp [h1, h.mp h1]
  · have h2 : ¬ rc2 = 0 := fun h2 => h1 (h.mpr h2)
    cases hp : w.panic_returns <;> simp [h1, h2, Event.shape]

/-- C9: `vmm_reset` and `vmm_shutdown` each call `vmm_timer_stop` exactly
once, before the board operation (`vmm_board_reset`, respectively
`vmm_board_shutdown`), which they issue exactly once; they call `vmm_panic`
exactly when the board operation returns non-zero; and when the two board
operations agree on returning zero or not, the two functions perform the same
sequence of events up to the choice of board operation and the text of the
messages. -/
theorem vmm_reset_shutdown_sequence (w : Env) :
    ((vmm_reset w).trace.count .vmm_timer_stop = 1 ∧
      (vmm_reset w).trace.count .vmm_board_reset = 1 ∧
      (∃ a b c, (vmm_reset w).trace = a ++ [.vmm_timer_stop] ++ b ++ [.vmm_board_reset] ++ c) ∧
      ((∃ msg, Event.vmm_panic msg ∈ (vmm_reset w).trace) ↔ w.board_reset ≠ 0)) ∧
    ((vmm_shutdown w).trace.count .vmm_timer_stop = 1 ∧
      (vmm_shutdown w).trace.count .vmm_board_shutdown = 1 ∧
      (∃ a b c, (vmm_shutdown w).trace =
        a ++ [.vmm_timer_stop] ++ b ++ [.vmm_board_shutdown] ++ c) ∧
      ((∃ msg, Event.vmm_panic msg ∈ (vmm_shutdown w).trace) ↔ w.board_shutdown ≠ 0)) ∧
    ((w.board_reset = 0 ↔ w.board_shutdown = 0) →
      (vmm_reset w).trace.map Event.shape = (vmm_shutdown w).trace.map Event.shape ∧
      (vmm_reset w).result = (vmm_shutdown w).result) := by
  rw [vmm_reset_eq, vmm_shutdown_eq]
  obtain ⟨r1, r2, _, r4⟩ := after_board_counts w w.board_reset "Error: Board reset failed.\n"
  obtain ⟨s1, _, s3, s4⟩ :=
    after_board_counts w w.board_shutdown "Error: Board shutdown failed.\n"
  refine ⟨⟨?_, ?_, ⟨[.vmm_printf "Stopping Hypervisor Timer Subsytem\n" []],
      [.vmm_printf "Issuing Board Reset\n" []], _, rfl⟩, ?_⟩,
    ⟨?_, ?_, ⟨[.vmm_printf "Stopping Hypervisor Timer Subsytem\n" []],
      [.vmm_printf "Issuing Board Shutdown\n" []], _, rfl⟩, ?_⟩, ?_⟩
  · simp [List.count_cons, r1]
  · simp [List.count_cons, r2]
  · simpa using r4
  · simp [List.count_cons, s1]
  · simp [List.count_cons, s3]
  · simpa using s4
  · intro h
    refine ⟨?_, rfl⟩
    simp only [List.map_append, after_board_shape w _ _ _ "Error: Board shutdown failed.\n" h]
    rfl

/-- C9, at `env_board (-5)`: both board operations fail. -/
theorem vmm_reset_shutdown_sequence_witness :
    (vmm_reset (env_board (-5))).trace.map Event.shape =
      (vmm_shutdown (env_board (-5))).trace.map Event.shape ∧
    (vmm_reset (env_board (-5))).result = (vmm_shutdown (env_board (-5))).result :=
  (vmm_reset_shutdown_sequence (env_board (-5))).2.2 (by simp [env_board])

end Xvisor
